import Mathlib

set_option maxHeartbeats 1000000

/-!
Shallow embedding of the List-Group Synthesizer of
`packages/backend/src/app/common/lists/list-groups/list.groups.service.ts`.

The persisted `ListGroup` and `Filter` rows live in an explicit `Store`;
the external collaborators (pipeline-stage lookup, user lookup) are read
from an `Env`.  The `async` methods of the service are sequentialized:
the reconciliation fan-out of `generateGroups` becomes a left fold over
the generated descriptors (the creations are independent, so any
interleaving produces the same set of rows; only the order of freshly
assigned ids depends on the schedule, and the fold fixes the program
order as the linearization).
-/

namespace Tillywork

/-- Modelled from the spec: the `ListGroupOptions` enum of the shared
types module (imported from `../types`, not under `src/`); the spec fixes
its variants ALL, LIST_STAGE, ASSIGNEES, DUE_DATE. -/
inductive ListGroupOptions where
  | ALL
  | LIST_STAGE
  | ASSIGNEES
  | DUE_DATE
  deriving DecidableEq

/-- Modelled from the spec: the `ListGroupEntityTypes` enum of the shared
types module (not under `src/`); a group's source entity is a pipeline
stage or a user. -/
inductive ListGroupEntityTypes where
  | LIST_STAGE
  | USER
  deriving DecidableEq

/-- Modelled from the spec: the `FilterEntityTypes` enum (not under
`src/`); only the LIST_GROUP owner tag is used by this service. -/
inductive FilterEntityTypes where
  | LIST_GROUP
  deriving DecidableEq

/- Modelled from the spec: the display values of the `ListGroupDueDate`
enum (not under `src/`); the spec fixes the four due-date bucket names. -/
namespace ListGroupDueDate

def PAST_DUE : String := "Past Due"

def TODAY : String := "Today"

def UPCOMING : String := "Upcoming"

def NO_DUE_DATE : String := "No Due Date"

end ListGroupDueDate

/-- A JSON-ish value appearing in a filter condition: a number (entity
id), a placeholder string, a list of values, or null. -/
inductive FilterValue where
  | vNull
  | vNum (n : Int)
  | vStr (s : String)
  | vArr (vs : List String)
  deriving DecidableEq

/-- One leaf condition of a filter expression: field path, operator,
value. -/
structure FilterCondition where
  field : String
  operator : String
  value : FilterValue
  deriving DecidableEq

/-- The filter expression tree used by this service: a conjunction of
leaf conditions (the service only ever emits a single `and` level). -/
structure FilterWhere where
  and : List FilterCondition
  deriving DecidableEq

/-- A persisted `Filter` row: owner entity id/type plus the expression.
The source field `where` is a Lean keyword, so it is called
`whereClause` here. -/
structure Filter where
  id : Nat
  entityId : Nat
  entityType : FilterEntityTypes
  whereClause : FilterWhere
  deriving DecidableEq

/-- A pipeline-stage record as returned by the stage lookup service
(interface per spec section 6: ordered records with id, name, color,
order, plus the listId/isCompleted columns used by `findBy`). -/
structure ListStage where
  id : Int
  name : String
  color : String
  order : Int
  isCompleted : Bool
  listId : Int
  deriving DecidableEq

/-- A user record as returned by the user lookup service (interface per
spec section 6: id, firstName, lastName, photo). -/
structure User where
  id : Int
  firstName : String
  lastName : String
  photo : Option String
  deriving DecidableEq

/-- `CreateListGroupDto`: the transient generated-group descriptor.
Optional fields default to `none` (absent in the source literals);
JavaScript `undefined` and `null` both map to `none`, matching the loose
equality `==` used by the reconciliation. -/
structure CreateListGroupDto where
  name : String
  type : Option ListGroupOptions := none
  entityId : Option Int := none
  entityType : Option ListGroupEntityTypes := none
  color : Option String := none
  icon : Option String := none
  order : Option Int := none
  filter : Option FilterWhere := none
  deriving DecidableEq

/-- A persisted `ListGroup` row.  The `filter` field is not a column: it
is populated by the left join of `findAll` and is `none` on rows as they
sit in the store. -/
structure ListGroup where
  id : Nat
  listId : Int
  name : String
  type : Option ListGroupOptions
  entityId : Option Int
  entityType : Option ListGroupEntityTypes
  color : Option String
  icon : Option String
  order : Option Int
  isExpanded : Bool
  filter : Option Filter
  deriving DecidableEq

/-- The persistence state: the `ListGroup` and `Filter` tables plus the
id sequences. -/
structure Store where
  groups : List ListGroup
  filters : List Filter
  nextGroupId : Nat
  nextFilterId : Nat
  deriving DecidableEq

/-- The external read-only collaborators: the pipeline stages table and
the user-membership resolution (which users belong to the project that
transitively owns a given list). -/
structure Env where
  stages : List ListStage
  usersForList : Int → List User

/-- `GenerateGroupsParams` of the source.  `groupBy` is `Option`-valued:
`none` models a falsy (unset) strategy, which the source treats like ALL
in the `switch` and skips in the `findAll` type constraint. -/
structure GenerateGroupsParams where
  listId : Int
  ignoreCompleted : Bool
  groupBy : Option ListGroupOptions

/-- `DEFAULT_GROUP` of the source: the single descriptor named "All". -/
def DEFAULT_GROUP : CreateListGroupDto :=
  { name := "All", type := some ListGroupOptions.ALL }

namespace ListStagesService

/-- Modelled from the spec: `listStagesService.findAll({listId})` returns
the stage records of the list in the lookup's own order (spec section 6);
here that order is the order of `env.stages`. -/
def findAll (env : Env) (listId : Int) : List ListStage :=
  env.stages.filter (fun stage => stage.listId == listId)

/-- Modelled from the spec: `listStagesService.findBy({where: {listId,
isCompleted}})` returns the stage records matching both columns. -/
def findBy (env : Env) (listId : Int) (isCompleted : Bool) : List ListStage :=
  env.stages.filter (fun stage => stage.listId == listId && stage.isCompleted == isCompleted)

end ListStagesService

namespace UsersService

/-- Modelled from the spec: `usersService.findAll` with the nested
membership predicate resolves the users of the project that owns the
list (via workspace, space, list); the resolution itself is part of the
environment. -/
def findAll (env : Env) (listId : Int) : List User :=
  env.usersForList listId

end UsersService

namespace FiltersService

/-- `filtersService.create({entityId, entityType, where})`: appends a
new `Filter` row with a fresh id. -/
def create (s : Store) (entityId : Nat) (w : FilterWhere) : Filter × Store :=
  let f : Filter :=
    { id := s.nextFilterId, entityId := entityId,
      entityType := FilterEntityTypes.LIST_GROUP, whereClause := w }
  (f, { s with filters := s.filters ++ [f], nextFilterId := s.nextFilterId + 1 })

end FiltersService

/-- ORDER BY "listGroup"."order" ASC on a nullable integer column:
null rows sort last (the database default for ascending order). -/
def orderLe (a b : Option Int) : Bool :=
  match a, b with
  | some x, some y => x ≤ y
  | some _, none => true
  | none, some _ => false
  | none, none => true

/-- Insertion step of the stable sort realizing the ORDER BY clause. -/
def insertByOrder (g : ListGroup) : List ListGroup → List ListGroup
  | [] => [g]
  | h :: t => if orderLe g.order h.order then g :: h :: t else h :: insertByOrder g t

/-- Stable insertion sort realizing ORDER BY "listGroup"."order" ASC. -/
def sortByOrder : List ListGroup → List ListGroup
  | [] => []
  | h :: t => insertByOrder h (sortByOrder t)

namespace ListGroupsService

/-- WHERE clause of `findAll`: `listGroup.listId = :listId`, and, only
when `groupBy` is truthy, `listGroup.type = :groupBy`. -/
def matchesList (listId : Int) (groupBy : Option ListGroupOptions) (g : ListGroup) : Bool :=
  g.listId == listId &&
    match groupBy with
    | some t => g.type == some t
    | none => true

/-- The `leftJoinAndMapOne` of `findAll`: map onto the group the filter
row with `filter.entityId = listGroup.id` and entity type LIST_GROUP. -/
def attachFilter (s : Store) (g : ListGroup) : ListGroup :=
  { g with
    filter := s.filters.find? (fun f =>
      f.entityId == g.id && f.entityType == FilterEntityTypes.LIST_GROUP) }

/-- `findAll({listId, groupBy})`: select the groups of the list
(optionally constrained to the strategy), map each one's filter, order
ascending by the `order` column. -/
def findAll (s : Store) (listId : Int) (groupBy : Option ListGroupOptions) : List ListGroup :=
  sortByOrder (((s.groups).filter (matchesList listId groupBy)).map (attachFilter s))

/-- `create`: build a `ListGroup` entity from the dto and save it.  The
caller in `generateGroups` spreads the descriptor and then overrides
`isExpanded`, `type` (with the raw `groupBy` argument, which therefore
wins even when it is unset) and `listId`; those three are passed here as
explicit arguments. -/
def create (s : Store) (d : CreateListGroupDto) (isExpanded : Bool)
    (ty : Option ListGroupOptions) (listId : Int) : ListGroup × Store :=
  let g : ListGroup :=
    { id := s.nextGroupId, listId := listId, name := d.name, type := ty,
      entityId := d.entityId, entityType := d.entityType,
      color := d.color, icon := d.icon, order := d.order,
      isExpanded := isExpanded, filter := none }
  (g, { s with groups := s.groups ++ [g], nextGroupId := s.nextGroupId + 1 })

/-- The `find` predicate of the reconciliation: existing group and
generated descriptor agree on entity id, entity type and name (the
source compares with JavaScript `==`, under which `undefined` equals
`null`; both are `none` here). -/
def matchesKey (g : ListGroup) (d : CreateListGroupDto) : Bool :=
  g.entityId == d.entityId && g.entityType == d.entityType && g.name == d.name

/-- One step of the reconciliation fan-out of `generateGroups`: if some
existing group matches the descriptor's key, keep the store unchanged;
otherwise create the group (expanded, tagged with `groupBy` and the
list) and, if the descriptor carries a filter, create the filter row
owned by the new group. -/
def reconcileOne (existingGroups : List ListGroup) (groupBy : Option ListGroupOptions)
    (listId : Int) (s : Store) (d : CreateListGroupDto) : Store :=
  match existingGroups.find? (fun g => matchesKey g d) with
  | some _ => s
  | none =>
    let (g, s1) := create s d true groupBy listId
    match d.filter with
    | some w => (FiltersService.create s1 g.id w).2
    | none => s1

/-- `generateGroupsByListStage({listId})`: one descriptor per stage of
the list, keyed by the stage, with an equality condition on
`cardLists.listStageId`. -/
def generateGroupsByListStage (env : Env) (listId : Int) : List CreateListGroupDto :=
  (ListStagesService.findAll env listId).map (fun stage =>
    { name := stage.name,
      entityId := some stage.id,
      entityType := some ListGroupEntityTypes.LIST_STAGE,
      type := some ListGroupOptions.LIST_STAGE,
      filter := some { and := [{ field := "cardLists.listStageId", operator := "eq",
                                 value := FilterValue.vNum stage.id }] },
      color := some stage.color,
      order := some stage.order })

/-- Index-carrying map mirroring the two-argument callback of
`Array.prototype.map((user, index) => ...)`. -/
def mapWithIndexFrom {α β : Type} (f : Nat → α → β) : Nat → List α → List β
  | _, [] => []
  | i, a :: l => f i a :: mapWithIndexFrom f (i + 1) l

/-- The per-user descriptor of `generateGroupsByAssignees`. -/
def assigneeGroup (index : Nat) (user : User) : CreateListGroupDto :=
  { name := user.firstName ++ " " ++ user.lastName,
    entityId := some user.id,
    entityType := some ListGroupEntityTypes.USER,
    type := some ListGroupOptions.ASSIGNEES,
    icon := user.photo,
    filter := some { and := [{ field := "users.id", operator := "eq",
                               value := FilterValue.vNum user.id }] },
    order := some ((index : Int) + 1) }

/-- The trailing sentinel descriptor pushed by
`generateGroupsByAssignees`. -/
def noAssigneeGroup : CreateListGroupDto :=
  { name := "No Assignee",
    entityId := none,
    entityType := none,
    type := some ListGroupOptions.ASSIGNEES,
    filter := some { and := [{ field := "users.id", operator := "isNull",
                               value := FilterValue.vNull }] } }

/-- `generateGroupsByAssignees(listId)`: one descriptor per resolved
member user (ordered as looked up, order = index + 1), then the "No
Assignee" sentinel pushed at the end. -/
def generateGroupsByAssignees (env : Env) (listId : Int) : List CreateListGroupDto :=
  mapWithIndexFrom assigneeGroup 0 (UsersService.findAll env listId) ++ [noAssigneeGroup]

/-- `generateGroupsByDueDate()`: the four fixed due-date bucket
descriptors, with symbolic start/end-of-day placeholder values. -/
def generateGroupsByDueDate : List CreateListGroupDto :=
  [ { name := ListGroupDueDate.PAST_DUE,
      type := some ListGroupOptions.DUE_DATE,
      filter := some { and := [{ field := "card.dueAt", operator := "lt",
                                 value := FilterValue.vStr ":startOfDay" }] },
      icon := some "mdi-clock-time-eight",
      color := some "error",
      order := some 1 },
    { name := ListGroupDueDate.TODAY,
      type := some ListGroupOptions.DUE_DATE,
      filter := some { and := [{ field := "card.dueAt", operator := "between",
                                 value := FilterValue.vArr [":startOfDay", ":endOfDay"] }] },
      icon := some "mdi-clock-time-twelve",
      color := some "info",
      order := some 2 },
    { name := ListGroupDueDate.UPCOMING,
      type := some ListGroupOptions.DUE_DATE,
      filter := some { and := [{ field := "card.dueAt", operator := "gt",
                                 value := FilterValue.vStr ":endOfDay" }] },
      icon := some "mdi-clock-time-four",
      color := some "default",
      order := some 3 },
    { name := ListGroupDueDate.NO_DUE_DATE,
      type := some ListGroupOptions.DUE_DATE,
      filter := some { and := [{ field := "card.dueAt", operator := "isNull",
                                 value := FilterValue.vNull }] },
      icon := some "mdi-clock-time-six-outline",
      color := some "default",
      order := some 4 } ]

/-- The strategy dispatch of `generateGroups`: the three strategy cases,
with the `switch` default (ALL or a falsy strategy) yielding the single
default descriptor. -/
def cardGroupsFor (env : Env) (listId : Int) (groupBy : Option ListGroupOptions) :
    List CreateListGroupDto :=
  match groupBy with
  | some ListGroupOptions.LIST_STAGE => generateGroupsByListStage env listId
  | some ListGroupOptions.ASSIGNEES => generateGroupsByAssignees env listId
  | some ListGroupOptions.DUE_DATE => generateGroupsByDueDate
  | _ => [DEFAULT_GROUP]

/-- `generateGroups({listId, ignoreCompleted, groupBy})`: fetch existing
groups, compute desired descriptors, reconcile each descriptor against
the pre-fetched existing groups (creating the missing ones), re-fetch,
and if the strategy is LIST_STAGE with `ignoreCompleted`, keep only the
groups named after a non-completed stage. -/
def generateGroups (env : Env) (s : Store) (p : GenerateGroupsParams) :
    List ListGroup × Store :=
  let existingGroups := findAll s p.listId p.groupBy
  let cardGroups := cardGroupsFor env p.listId p.groupBy
  let s1 := cardGroups.foldl (reconcileOne existingGroups p.groupBy p.listId) s
  let finalGroups := findAll s1 p.listId p.groupBy
  let finalGroups :=
    if p.groupBy == some ListGroupOptions.LIST_STAGE && p.ignoreCompleted then
      let listStages := ListStagesService.findBy env p.listId false
      finalGroups.filter (fun g => (listStages.map (fun stage => stage.name)).contains g.name)
    else finalGroups
  (finalGroups, s1)

/-- `findOne(id)`: return the group with the given id, or throw
NotFoundException with the source's message when none exists. -/
def findOne (s : Store) (id : Nat) : Except String ListGroup :=
  match s.groups.find? (fun g => g.id == id) with
  | some g => Except.ok g
  | none => Except.error ("List Group with ID " ++ toString id ++ " not found")

/-- Modelled from the spec: `UpdateListGroupDto` (the dto file is not
under `src/`) is a partial patch of the group's fields; an outer `none`
means the field is absent from the patch, and for nullable columns the
inner `Option` is the supplied column value. -/
structure UpdateListGroupDto where
  name : Option String := none
  type : Option (Option ListGroupOptions) := none
  entityId : Option (Option Int) := none
  entityType : Option (Option ListGroupEntityTypes) := none
  color : Option (Option String) := none
  icon : Option (Option String) := none
  order : Option (Option Int) := none
  isExpanded : Option Bool := none

/-- Modelled from the spec: `repository.merge(entity, dto)` copies the
supplied (defined) dto fields onto the entity and leaves every other
field as it was. -/
def mergeGroup (g : ListGroup) (d : UpdateListGroupDto) : ListGroup :=
  { g with
    name := d.name.getD g.name,
    type := d.type.getD g.type,
    entityId := d.entityId.getD g.entityId,
    entityType := d.entityType.getD g.entityType,
    color := d.color.getD g.color,
    icon := d.icon.getD g.icon,
    order := d.order.getD g.order,
    isExpanded := d.isExpanded.getD g.isExpanded }

/-- `update(id, dto)`: `findOne`, merge the patch, save.  The store is
returned alongside the result; when `findOne` throws, the exception
propagates and the store is untouched. -/
def update (s : Store) (id : Nat) (d : UpdateListGroupDto) :
    Except String ListGroup × Store :=
  match findOne s id with
  | Except.error e => (Except.error e, s)
  | Except.ok g =>
    let merged := mergeGroup g d
    (Except.ok merged,
     { s with groups := s.groups.map (fun h => if h.id == id then merged else h) })

/-- The row created by the reconciliation for the default "All"
descriptor when the strategy argument is unset: the `type` column is
overridden with the (unset) `groupBy` value, not the descriptor's ALL
tag. -/
def allRow (s : Store) (listId : Int) : ListGroup :=
  { id := s.nextGroupId, listId := listId, name := "All", type := none,
    entityId := none, entityType := none, color := none, icon := none,
    order := none, isExpanded := true, filter := none }

/-- Which effectful sub-operations of one `generateGroups` call fail:
the n-th fan-out item's group save or filter save (indexed by the
item's position among the generated descriptors), the initial fetch,
the final fetch, and the stage lookup of the ignoreCompleted branch. -/
structure FailureModel where
  groupSaveFails : Nat → Bool
  filterSaveFails : Nat → Bool
  initialFetchFails : Bool
  finalFetchFails : Bool
  stageLookupFails : Bool

/-- The all-successful failure model. -/
def noFailures : FailureModel :=
  { groupSaveFails := fun _ => false, filterSaveFails := fun _ => false,
    initialFetchFails := false, finalFetchFails := false, stageLookupFails := false }

/-- One reconciliation item of `generateGroups` under the failure model.
The wrapper promise built in the source only ever calls `resolve`: it
resolves on the matched path and on the fully successful creation path.
When `create` (or the subsequent `filtersService.create`) rejects, the
`.then` continuation is skipped, the rejection has no handler, and the
wrapper promise is left forever pending.  The state is (store, item
index, some wrapper promise never settles). A failed group save
persists nothing; a failed filter save leaves the group row already
saved without its filter row. -/
def reconcileOneE (fm : FailureModel) (existingGroups : List ListGroup)
    (groupBy : Option ListGroupOptions) (listId : Int)
    (st : Store × Nat × Bool) (d : CreateListGroupDto) : Store × Nat × Bool :=
  let (s, idx, pending) := st
  match existingGroups.find? (fun g => matchesKey g d) with
  | some _ => (s, idx + 1, pending)
  | none =>
    if fm.groupSaveFails idx then (s, idx + 1, true)
    else
      let (g, s1) := create s d true groupBy listId
      match d.filter with
      | some w =>
        if fm.filterSaveFails idx then (s1, idx + 1, true)
        else ((FiltersService.create s1 g.id w).2, idx + 1, pending)
      | none => (s1, idx + 1, pending)

/-- `generateGroups` instrumented with the failure model.  `none` models
divergence: when some fan-out wrapper promise never settles,
`Promise.allSettled` never resolves and the routine neither returns nor
throws.  `Except.error` models an exception propagating to the caller
(a failed initial fetch, final fetch, or stage lookup is awaited
directly, so its rejection is rethrown by the `await`). -/
def generateGroupsE (env : Env) (fm : FailureModel) (s : Store)
    (p : GenerateGroupsParams) : Option (Except String (List ListGroup × Store)) :=
  if fm.initialFetchFails then some (Except.error "initial fetch failed") else
  let existingGroups := findAll s p.listId p.groupBy
  let cardGroups := cardGroupsFor env p.listId p.groupBy
  let (s1, _, pending) :=
    cardGroups.foldl (reconcileOneE fm existingGroups p.groupBy p.listId) (s, 0, false)
  if pending then none else
  if fm.finalFetchFails then some (Except.error "final fetch failed") else
  let finalGroups := findAll s1 p.listId p.groupBy
  if p.groupBy == some ListGroupOptions.LIST_STAGE && p.ignoreCompleted then
    if fm.stageLookupFails then some (Except.error "stage lookup failed")
    else
      let listStages := ListStagesService.findBy env p.listId false
      some (Except.ok
        (finalGroups.filter (fun g =>
          (listStages.map (fun stage => stage.name)).contains g.name), s1))
  else some (Except.ok (finalGroups, s1))

end ListGroupsService

/-! Concrete fixtures used to evaluate the definitions on small inputs. -/

/-- The empty store. -/
def store0 : Store := { groups := [], filters := [], nextGroupId := 0, nextFilterId := 0 }

/-- A list (id 7) with stages Todo, Doing and a completed Done stage;
no project members. -/
def envStages : Env :=
  { stages := [
      { id := 1, name := "Todo", color := "blue", order := 1, isCompleted := false, listId := 7 },
      { id := 2, name := "Doing", color := "yellow", order := 2, isCompleted := false, listId := 7 },
      { id := 3, name := "Done", color := "green", order := 3, isCompleted := true, listId := 7 } ],
    usersForList := fun _ => [] }

/-- Two project members for list 5, no stages. -/
def envUsers : Env :=
  { stages := [],
    usersForList := fun listId =>
      if listId == 5 then
        [ { id := 21, firstName := "Ada", lastName := "Lovelace", photo := some "ada.png" },
          { id := 22, firstName := "Alan", lastName := "Turing", photo := none } ]
      else [] }

/-- Parameters of the spec's ignoreCompleted example. -/
def pStage : GenerateGroupsParams :=
  { listId := 7, ignoreCompleted := true, groupBy := some ListGroupOptions.LIST_STAGE }

/-- Parameters with a due-date strategy. -/
def pDue : GenerateGroupsParams :=
  { listId := 1, ignoreCompleted := false, groupBy := some ListGroupOptions.DUE_DATE }

/-- Parameters with an unset (falsy) strategy. -/
def pNone : GenerateGroupsParams :=
  { listId := 3, ignoreCompleted := false, groupBy := none }

/-- A store holding one stage-strategy group of list 3 (and nothing
named "All"), for exercising the unset-strategy path. -/
def storeX : Store :=
  { groups := [
      { id := 40, listId := 3, name := "X", type := some ListGroupOptions.LIST_STAGE,
        entityId := some 9, entityType := some ListGroupEntityTypes.LIST_STAGE,
        color := some "red", icon := none, order := some 1, isExpanded := true,
        filter := none } ],
    filters := [], nextGroupId := 41, nextFilterId := 0 }

/-- A store holding one fully populated group with id 10. -/
def storeU : Store :=
  { groups := [
      { id := 10, listId := 3, name := "Backlog", type := some ListGroupOptions.LIST_STAGE,
        entityId := some 9, entityType := some ListGroupEntityTypes.LIST_STAGE,
        color := some "red", icon := some "mdi-star", order := some 2, isExpanded := false,
        filter := none } ],
    filters := [], nextGroupId := 11, nextFilterId := 0 }

/-- A patch supplying only a new name and a new color. -/
def patchNC : ListGroupsService.UpdateListGroupDto :=
  { name := some "Renamed", color := some (some "violet") }

/-- The failure model in which exactly the first fan-out creation's
group save rejects. -/
def failFirstCreate : ListGroupsService.FailureModel :=
  { ListGroupsService.noFailures with groupSaveFails := fun n => n == 0 }

end Tillywork

namespace Tillywork

open ListGroupsService

/-! Helper lemmas about the ORDER BY sort, the filter join, and the
reconciliation fold. -/

theorem mem_insertByOrder {g a : ListGroup} :
    ∀ {l : List ListGroup}, a ∈ insertByOrder g l ↔ a = g ∨ a ∈ l
  | [] => by simp [insertByOrder]
  | h :: t => by
    by_cases hc : orderLe g.order h.order
    · simp [insertByOrder, hc]
    · simp [insertByOrder, hc, mem_insertByOrder (l := t)]
      tauto

theorem mem_sortByOrder {a : ListGroup} :
    ∀ {l : List ListGroup}, a ∈ sortByOrder l ↔ a ∈ l
  | [] => by simp [sortByOrder]
  | h :: t => by
    simp [sortByOrder, mem_insertByOrder, mem_sortByOrder (l := t)]

theorem matchesKey_attachFilter (s : Store) (g : ListGroup) (d : CreateListGroupDto) :
    matchesKey (attachFilter s g) d = matchesKey g d := rfl

theorem matchesList_attachFilter (s : Store) (listId : Int)
    (gb : Option ListGroupOptions) (g : ListGroup) :
    matchesList listId gb (attachFilter s g) = matchesList listId gb g := rfl

theorem mem_findAll_of_mem {s : Store} {listId : Int} {gb : Option ListGroupOptions}
    {g : ListGroup} (hmem : g ∈ s.groups) (hml : matchesList listId gb g = true) :
    attachFilter s g ∈ findAll s listId gb := by
  unfold findAll
  rw [mem_sortByOrder]
  exact List.mem_map_of_mem _ (List.mem_filter.mpr ⟨hmem, hml⟩)

theorem of_mem_findAll {s : Store} {listId : Int} {gb : Option ListGroupOptions}
    {g : ListGroup} (h : g ∈ findAll s listId gb) :
    ∃ g0, g0 ∈ s.groups ∧ matchesList listId gb g0 = true ∧ g = attachFilter s g0 := by
  unfold findAll at h
  rw [mem_sortByOrder] at h
  obtain ⟨g0, hg0, hEq⟩ := List.mem_map.mp h
  obtain ⟨hmem, hml⟩ := List.mem_filter.mp hg0
  exact ⟨g0, hmem, hml, hEq.symm⟩

theorem reconcileOne_extends (ex : List ListGroup) (gb : Option ListGroupOptions)
    (lid : Int) (s : Store) (d : CreateListGroupDto) :
    ∃ gs fs, (reconcileOne ex gb lid s d).groups = s.groups ++ gs ∧
      (reconcileOne ex gb lid s d).filters = s.filters ++ fs := by
  unfold reconcileOne
  cases hf : ex.find? (fun g => matchesKey g d) with
  | some g => exact ⟨[], [], by simp, by simp⟩
  | none =>
    cases hd : d.filter with
    | some w =>
      exact ⟨[(create s d true gb lid).1],
        [(FiltersService.create (create s d true gb lid).2
            (create s d true gb lid).1.id w).1],
        by simp [create, FiltersService.create], by simp [create, FiltersService.create]⟩
    | none =>
      exact ⟨[(create s d true gb lid).1], [],
        by simp [create], by simp [create]⟩

theorem foldl_reconcileOne_extends (ex : List ListGroup) (gb : Option ListGroupOptions)
    (lid : Int) :
    ∀ (ds : List CreateListGroupDto) (s : Store),
      ∃ gs fs, (ds.foldl (reconcileOne ex gb lid) s).groups = s.groups ++ gs ∧
        (ds.foldl (reconcileOne ex gb lid) s).filters = s.filters ++ fs
  | [], s => ⟨[], [], by simp, by simp⟩
  | d :: ds, s => by
    obtain ⟨gs1, fs1, h1, h2⟩ := reconcileOne_extends ex gb lid s d
    obtain ⟨gs2, fs2, h3, h4⟩ :=
      foldl_reconcileOne_extends ex gb lid ds (reconcileOne ex gb lid s d)
    exact ⟨gs1 ++ gs2, fs1 ++ fs2,
      by rw [List.foldl_cons, h3, h1, List.append_assoc],
      by rw [List.foldl_cons, h4, h2, List.append_assoc]⟩

theorem mem_groups_foldl_reconcileOne {ex : List ListGroup} {gb : Option ListGroupOptions}
    {lid : Int} {ds : List CreateListGroupDto} {s : Store} {g : ListGroup}
    (h : g ∈ s.groups) : g ∈ (ds.foldl (reconcileOne ex gb lid) s).groups := by
  obtain ⟨gs, fs, h1, _⟩ := foldl_reconcileOne_extends ex gb lid ds s
  rw [h1]
  exact List.mem_append_left _ h

theorem matchesKey_congr {g g' : ListGroup} (d : CreateListGroupDto)
    (h1 : g.entityId = g'.entityId) (h2 : g.entityType = g'.entityType)
    (h3 : g.name = g'.name) : matchesKey g d = matchesKey g' d := by
  unfold matchesKey
  rw [h1, h2, h3]

theorem matchesList_create (gb : Option ListGroupOptions) (lid : Int) (s : Store)
    (d : CreateListGroupDto) :
    matchesList lid gb (create s d true gb lid).1 = true := by
  unfold matchesList create
  cases gb <;> simp

theorem matchesKey_create (gb : Option ListGroupOptions) (lid : Int) (s : Store)
    (d : CreateListGroupDto) :
    matchesKey (create s d true gb lid).1 d = true := by
  unfold matchesKey create
  simp

theorem reconcile_complete (ex : List ListGroup) (gb : Option ListGroupOptions)
    (lid : Int) :
    ∀ (ds : List CreateListGroupDto) (s : Store),
      (∀ g ∈ ex, ∃ g0 ∈ s.groups, g0.entityId = g.entityId ∧ g0.entityType = g.entityType ∧
        g0.name = g.name ∧ matchesList lid gb g0 = true) →
      ∀ d ∈ ds, ∃ g ∈ (ds.foldl (reconcileOne ex gb lid) s).groups,
        matchesList lid gb g = true ∧ matchesKey g d = true
  | [], _, _ => by simp
  | d0 :: ds, s, H => by
    have hext := reconcileOne_extends ex gb lid s d0
    obtain ⟨gs1, fs1, hg1, _⟩ := hext
    have H' : ∀ g ∈ ex, ∃ g0 ∈ (reconcileOne ex gb lid s d0).groups,
        g0.entityId = g.entityId ∧ g0.entityType = g.entityType ∧
        g0.name = g.name ∧ matchesList lid gb g0 = true := by
      intro g hg
      obtain ⟨g0, hg0, he⟩ := H g hg
      exact ⟨g0, by rw [hg1]; exact List.mem_append_left _ hg0, he⟩
    intro d hd
    rcases List.mem_cons.mp hd with hEq | htl
    · subst hEq
      rw [List.foldl_cons]
      cases hf : ex.find? (fun g => matchesKey g d) with
      | some gm =>
        have hkm : matchesKey gm d = true := by
          have h2 := List.find?_some hf
          exact h2
        have hmm : gm ∈ ex := List.mem_of_find?_eq_some hf
        obtain ⟨g0, hg0mem, he1, he2, he3, hml⟩ := H gm hmm
        have hstep : reconcileOne ex gb lid s d = s := by
          unfold reconcileOne
          rw [hf]
        refine ⟨g0, ?_, hml, ?_⟩
        · rw [hstep]
          exact mem_groups_foldl_reconcileOne hg0mem
        · rw [matchesKey_congr d he1 he2 he3, hkm]
      | none =>
        have hstepmem : (create s d true gb lid).1 ∈ (reconcileOne ex gb lid s d).groups := by
          unfold reconcileOne
          rw [hf]
          cases hdf : d.filter with
          | some w => simp [create, FiltersService.create]
          | none => simp [create]
        exact ⟨(create s d true gb lid).1,
          mem_groups_foldl_reconcileOne hstepmem,
          matchesList_create gb lid s d, matchesKey_create gb lid s d⟩
    · rw [List.foldl_cons]
      exact reconcile_complete ex gb lid ds (reconcileOne ex gb lid s d0) H' d htl

theorem reconcile_noop (ex : List ListGroup) (gb : Option ListGroupOptions) (lid : Int) :
    ∀ (ds : List CreateListGroupDto) (s : Store),
      (∀ d ∈ ds, ∃ g ∈ ex, matchesKey g d = true) →
      ds.foldl (reconcileOne ex gb lid) s = s
  | [], _, _ => rfl
  | d :: ds, s, H => by
    obtain ⟨g, hg, hk⟩ := H d (List.mem_cons_self d ds)
    have hsome : (ex.find? (fun g => matchesKey g d)).isSome :=
      List.find?_isSome.mpr ⟨g, hg, hk⟩
    obtain ⟨gm, hgm⟩ := Option.isSome_iff_exists.mp hsome
    have hstep : reconcileOne ex gb lid s d = s := by
      unfold reconcileOne
      rw [hgm]
    rw [List.foldl_cons, hstep]
    exact reconcile_noop ex gb lid ds s (fun d' hd' => H d' (List.mem_cons_of_mem d hd'))

/-! Properties of the group-generation orchestrator. -/

theorem generateGroups_snd (env : Env) (s : Store) (p : GenerateGroupsParams) :
    (generateGroups env s p).2 =
      (cardGroupsFor env p.listId p.groupBy).foldl
        (reconcileOne (findAll s p.listId p.groupBy) p.groupBy p.listId) s := rfl

/-- C1: generateGroups is idempotent per (list, strategy): with the
stages and users unchanged, a second run finds, for every generated
descriptor, an existing group matching on (entityId, entityType, name)
and skips creation, so the second run leaves the store exactly as the
first run left it (no new ListGroup or Filter rows). -/
theorem generateGroups_idempotent (env : Env) (s : Store) (p : GenerateGroupsParams) :
    (generateGroups env (generateGroups env s p).2 p).2 = (generateGroups env s p).2 := by
  rw [generateGroups_snd env ((generateGroups env s p).2) p, generateGroups_snd env s p]
  set ds := cardGroupsFor env p.listId p.groupBy with hds
  set s1 := ds.foldl (reconcileOne (findAll s p.listId p.groupBy) p.groupBy p.listId) s
    with hs1
  apply reconcile_noop
  intro d hd
  have hH : ∀ g ∈ findAll s p.listId p.groupBy, ∃ g0 ∈ s.groups,
      g0.entityId = g.entityId ∧ g0.entityType = g.entityType ∧
      g0.name = g.name ∧ matchesList p.listId p.groupBy g0 = true := by
    intro g hg
    obtain ⟨g0, hmem, hml, hEq⟩ := of_mem_findAll hg
    exact ⟨g0, hmem, by rw [hEq]; rfl, by rw [hEq]; rfl, by rw [hEq]; rfl, hml⟩
  obtain ⟨g, hgmem, hml, hmk⟩ :=
    reconcile_complete (findAll s p.listId p.groupBy) p.groupBy p.listId ds s hH d hd
  refine ⟨attachFilter s1 g, ?_, ?_⟩
  · exact mem_findAll_of_mem hgmem hml
  · rw [matchesKey_attachFilter]
    exact hmk

/-- C8: generateGroups never deletes or mutates a pre-existing row: the
groups and filters tables after a call are the tables before the call
with zero or more freshly created rows appended, so every pre-existing
row is still present, field for field unchanged. -/
theorem generateGroups_frame (env : Env) (s : Store) (p : GenerateGroupsParams) :
    ∃ newGroups newFilters,
      (generateGroups env s p).2.groups = s.groups ++ newGroups ∧
      (generateGroups env s p).2.filters = s.filters ++ newFilters := by
  rw [generateGroups_snd env s p]
  obtain ⟨gs, fs, h1, h2⟩ :=
    foldl_reconcileOne_extends (findAll s p.listId p.groupBy) p.groupBy p.listId
      (cardGroupsFor env p.listId p.groupBy) s
  exact ⟨gs, fs, h1, h2⟩

/-- C9: with an unset (falsy) strategy the desired set is the single
"All" descriptor; if it already has a match on (entityId, entityType,
name) among all the list's groups (the initial fetch has no strategy
constraint) nothing changes, otherwise exactly one row is created whose
type column is the unset groupBy value (not the descriptor's ALL tag)
and no filter row; and the returned sequence is the unconstrained final
fetch, so it contains the list's groups of every strategy. -/
theorem generateGroups_unset_strategy (env : Env) (s : Store) (p : GenerateGroupsParams)
    (h : p.groupBy = none) :
    ((∃ g ∈ findAll s p.listId none, matchesKey g DEFAULT_GROUP = true) →
        (generateGroups env s p).2 = s)
    ∧ ((¬ ∃ g ∈ findAll s p.listId none, matchesKey g DEFAULT_GROUP = true) →
        (generateGroups env s p).2.groups = s.groups ++ [allRow s p.listId] ∧
        (generateGroups env s p).2.filters = s.filters)
    ∧ (∀ g ∈ (generateGroups env s p).2.groups, g.listId = p.listId →
        attachFilter (generateGroups env s p).2 g ∈ (generateGroups env s p).1) := by
  obtain ⟨lid, ic, gb⟩ := p
  simp only at h
  subst h
  refine ⟨?_, ?_, ?_⟩
  · intro hex
    obtain ⟨g, hg, hk⟩ := hex
    have hsome : ((findAll s lid none).find? (fun g => matchesKey g DEFAULT_GROUP)).isSome :=
      List.find?_isSome.mpr ⟨g, hg, hk⟩
    obtain ⟨gm, hgm⟩ := Option.isSome_iff_exists.mp hsome
    show reconcileOne (findAll s lid none) none lid s DEFAULT_GROUP = s
    unfold reconcileOne
    rw [hgm]
  · intro hnex
    have hfind : (findAll s lid none).find? (fun g => matchesKey g DEFAULT_GROUP) = none := by
      rw [List.find?_eq_none]
      intro g hg
      simp only [Bool.not_eq_true]
      by_contra hcon
      exact hnex ⟨g, hg, by simpa using hcon⟩
    constructor
    · show (reconcileOne (findAll s lid none) none lid s DEFAULT_GROUP).groups =
        s.groups ++ [allRow s lid]
      unfold reconcileOne
      rw [hfind]
      rfl
    · show (reconcileOne (findAll s lid none) none lid s DEFAULT_GROUP).filters = s.filters
      unfold reconcileOne
      rw [hfind]
      rfl
  · intro g hg hl
    have hml : matchesList lid none g = true := by
      simp [matchesList, hl]
    exact mem_findAll_of_mem hg hml

/-- C9 witness: on a store holding a stage-strategy group of list 3 and
no "All" group, an unset-strategy call appends exactly the "All" row
with a null type column, and returns the list's groups of every
strategy. -/
theorem generateGroups_unset_strategy_witness :
    ((generateGroups envStages storeX pNone).2.groups = storeX.groups ++ [allRow storeX 3])
    ∧ ((generateGroups envStages storeX pNone).1.map (fun g => (g.name, g.type)) =
        [("X", some ListGroupOptions.LIST_STAGE), ("All", none)]) :=
  ⟨((generateGroups_unset_strategy envStages storeX pNone rfl).2.1 (by decide)).1,
   by rfl⟩

/-- C6: with strategy LIST_STAGE and ignoreCompleted, the returned
sequence is exactly the final fetched group set restricted to groups
whose name equals the name of some non-completed stage of the list
(name is the join key), while every fetched group — including those
named after completed stages and hence excluded — corresponds to a row
still persisted in the store. -/
theorem generateGroups_ignoreCompleted (env : Env) (s : Store) (p : GenerateGroupsParams)
    (h1 : p.groupBy = some ListGroupOptions.LIST_STAGE) (h2 : p.ignoreCompleted = true) :
    ((generateGroups env s p).1 =
      (findAll (generateGroups env s p).2 p.listId (some ListGroupOptions.LIST_STAGE)).filter
        (fun g => ((ListStagesService.findBy env p.listId false).map
            (fun stage => stage.name)).contains g.name))
    ∧ ∀ g ∈ findAll (generateGroups env s p).2 p.listId (some ListGroupOptions.LIST_STAGE),
        ∃ g0 ∈ (generateGroups env s p).2.groups, g0.id = g.id ∧ g0.name = g.name := by
  obtain ⟨lid, ic, gb⟩ := p
  simp only at h1 h2
  subst h1
  subst h2
  constructor
  · rfl
  · intro g hg
    obtain ⟨g0, hmem, hml, hEq⟩ := of_mem_findAll hg
    exact ⟨g0, hmem, by rw [hEq]; rfl, by rw [hEq]; rfl⟩

/-- C6 witness: the spec's example — list 7 has stages Todo, Doing and
the completed Done; generation with ignoreCompleted returns exactly the
Todo and Doing groups in stage order even though a Done group row is
persisted. -/
theorem generateGroups_ignoreCompleted_witness :
    ((generateGroups envStages store0 pStage).1.map (fun g => g.name) = ["Todo", "Doing"])
    ∧ ((generateGroups envStages store0 pStage).2.groups.map (fun g => g.name) =
        ["Todo", "Doing", "Done"])
    ∧ ((generateGroups envStages store0 pStage).1 =
        (findAll (generateGroups envStages store0 pStage).2 pStage.listId
            (some ListGroupOptions.LIST_STAGE)).filter
          (fun g => ((ListStagesService.findBy envStages pStage.listId false).map
              (fun stage => stage.name)).contains g.name)) :=
  ⟨by rfl, by rfl, (generateGroups_ignoreCompleted envStages store0 pStage rfl rfl).1⟩

/-! Properties of the three strategy functions. -/

/-- C4: by-stage generation emits one descriptor per pipeline stage of
the list, in the order the stage lookup returns them, keyed by the
stage (id and stage entity type), tagged LIST_STAGE, carrying the
stage's name, color and order, and a single-condition conjunction
testing cardLists.listStageId for equality with the stage id. -/
theorem generateGroupsByListStage_spec (env : Env) (listId : Int) :
    List.Forall₂ (fun (stage : ListStage) (d : CreateListGroupDto) =>
        d.entityId = some stage.id ∧
        d.entityType = some ListGroupEntityTypes.LIST_STAGE ∧
        d.type = some ListGroupOptions.LIST_STAGE ∧
        d.name = stage.name ∧
        d.color = some stage.color ∧
        d.order = some stage.order ∧
        d.filter = some { and := [{ field := "cardLists.listStageId", operator := "eq",
                                    value := FilterValue.vNum stage.id }] })
      (ListStagesService.findAll env listId) (generateGroupsByListStage env listId) := by
  unfold generateGroupsByListStage
  rw [List.forall₂_map_right_iff]
  exact List.forall₂_same.mpr (fun stage _ => ⟨rfl, rfl, rfl, rfl, rfl, rfl, rfl⟩)

theorem mapWithIndexFrom_append_getElem {α β : Type} (f : Nat → α → β) (rest : List β) :
    ∀ (l : List α) (k i : Nat) (a : α), l[i]? = some a →
      (mapWithIndexFrom f k l ++ rest)[i]? = some (f (k + i) a)
  | [], _, i, a => by simp
  | x :: l, k, 0, a => by
    intro h
    simp only [List.getElem?_cons_zero, Option.some.injEq] at h
    subst h
    simp [mapWithIndexFrom]
  | x :: l, k, i + 1, a => by
    intro h
    simp only [List.getElem?_cons_succ] at h
    have ih := mapWithIndexFrom_append_getElem f rest l (k + 1) i a h
    have hk : k + 1 + i = k + (i + 1) := by omega
    simp only [mapWithIndexFrom, List.cons_append, List.getElem?_cons_succ]
    rw [ih, hk]

theorem mapWithIndexFrom_length {α β : Type} (f : Nat → α → β) :
    ∀ (k : Nat) (l : List α), (mapWithIndexFrom f k l).length = l.length
  | _, [] => rfl
  | k, a :: l => by
    simp [mapWithIndexFrom, mapWithIndexFrom_length f (k + 1) l]

/-- C5: assignee generation emits, for the i-th resolved member user, a
descriptor keyed by the user, named firstName-space-lastName, with icon
the user's photo, order i + 1, and an equality condition on users.id;
after all users comes exactly one trailing "No Assignee" sentinel with
null key, no explicit order, and an is-null condition on users.id; with
no users the result is just the sentinel. -/
theorem generateGroupsByAssignees_spec (env : Env) (listId : Int) :
    ((generateGroupsByAssignees env listId).length =
      (UsersService.findAll env listId).length + 1)
    ∧ (∀ (i : Nat) (u : User), (UsersService.findAll env listId)[i]? = some u →
        (generateGroupsByAssignees env listId)[i]? = some
          { name := u.firstName ++ " " ++ u.lastName,
            type := some ListGroupOptions.ASSIGNEES,
            entityId := some u.id,
            entityType := some ListGroupEntityTypes.USER,
            icon := u.photo,
            order := some ((i : Int) + 1),
            filter := some { and := [{ field := "users.id", operator := "eq",
                                       value := FilterValue.vNum u.id }] } })
    ∧ ((generateGroupsByAssignees env listId)[(UsersService.findAll env listId).length]? =
        some { name := "No Assignee",
               type := some ListGroupOptions.ASSIGNEES,
               entityId := none,
               entityType := none,
               filter := some { and := [{ field := "users.id", operator := "isNull",
                                          value := FilterValue.vNull }] } })
    ∧ (UsersService.findAll env listId = [] →
        generateGroupsByAssignees env listId =
          [{ name := "No Assignee",
             type := some ListGroupOptions.ASSIGNEES,
             entityId := none,
             entityType := none,
             filter := some { and := [{ field := "users.id", operator := "isNull",
                                        value := FilterValue.vNull }] }}]) := by
  refine ⟨?_, ?_, ?_, ?_⟩
  · unfold generateGroupsByAssignees
    simp [mapWithIndexFrom_length]
  · intro i u h
    have := mapWithIndexFrom_append_getElem assigneeGroup [noAssigneeGroup]
      (UsersService.findAll env listId) 0 i u h
    simp only [Nat.zero_add] at this
    exact this
  · have hlen : (mapWithIndexFrom assigneeGroup 0 (UsersService.findAll env listId)).length =
        (UsersService.findAll env listId).length :=
      mapWithIndexFrom_length assigneeGroup 0 (UsersService.findAll env listId)
    show (mapWithIndexFrom assigneeGroup 0 (UsersService.findAll env listId) ++
        [noAssigneeGroup])[(UsersService.findAll env listId).length]? = _
    rw [← hlen]
    exact List.getElem?_concat_length _ _
  · intro h
    unfold generateGroupsByAssignees
    rw [h]
    rfl

/-- C5 witness: list 5 has members Ada Lovelace (photo) and Alan Turing
(no photo); the generated descriptors are the two user groups in lookup
order followed by the sentinel. -/
theorem generateGroupsByAssignees_spec_witness :
    ((generateGroupsByAssignees envUsers 5).map (fun d => (d.name, d.order, d.entityId)) =
      [("Ada Lovelace", some 1, some 21), ("Alan Turing", some 2, some 22),
       ("No Assignee", none, none)])
    ∧ ((generateGroupsByAssignees envUsers 5).length =
        (UsersService.findAll envUsers 5).length + 1)
    ∧ ((generateGroupsByAssignees envUsers 5)[0]? = some
        { name := "Ada Lovelace",
          type := some ListGroupOptions.ASSIGNEES,
          entityId := some 21,
          entityType := some ListGroupEntityTypes.USER,
          icon := some "ada.png",
          order := some 1,
          filter := some { and := [{ field := "users.id", operator := "eq",
                                     value := FilterValue.vNum 21 }] } }) :=
  ⟨by rfl, (generateGroupsByAssignees_spec envUsers 5).1,
   (generateGroupsByAssignees_spec envUsers 5).2.1 0
     { id := 21, firstName := "Ada", lastName := "Lovelace", photo := some "ada.png" }
     (by rfl)⟩

/-- C3: due-date generation always returns exactly the four fixed
descriptors Past Due, Today, Upcoming, No Due Date in that order, with
orders 1 to 4, operators lt/between/gt/isNull over the symbolic
start-of-day and end-of-day placeholders, and no source entity. -/
theorem generateGroupsByDueDate_spec :
    (generateGroupsByDueDate.map (fun d => (d.name, d.order)) =
      [(ListGroupDueDate.PAST_DUE, some 1), (ListGroupDueDate.TODAY, some 2),
       (ListGroupDueDate.UPCOMING, some 3), (ListGroupDueDate.NO_DUE_DATE, some 4)])
    ∧ (generateGroupsByDueDate.map (fun d =>
        d.filter.map (fun w => w.and.map (fun c => (c.field, c.operator, c.value)))) =
      [some [("card.dueAt", "lt", FilterValue.vStr ":startOfDay")],
       some [("card.dueAt", "between", FilterValue.vArr [":startOfDay", ":endOfDay"])],
       some [("card.dueAt", "gt", FilterValue.vStr ":endOfDay")],
       some [("card.dueAt", "isNull", FilterValue.vNull)]])
    ∧ (generateGroupsByDueDate.map (fun d => (d.entityId, d.entityType)) =
      [(none, none), (none, none), (none, none), (none, none)])
    ∧ (generateGroupsByDueDate.map (fun d => d.name) =
      ["Past Due", "Today", "Upcoming", "No Due Date"]) :=
  ⟨rfl, rfl, rfl, rfl⟩

/-! Properties of the single-group fetch and update. -/

/-- C7: findOne raises NotFound exactly when no group with the id
exists; when one exists it returns a stored group carrying that id and
raises nothing. -/
theorem findOne_spec (s : Store) (id : Nat) :
    ((∀ g ∈ s.groups, g.id ≠ id) →
        findOne s id = Except.error ("List Group with ID " ++ toString id ++ " not found"))
    ∧ (∀ g, findOne s id = Except.ok g → g ∈ s.groups ∧ g.id = id)
    ∧ ((∃ g ∈ s.groups, g.id = id) → ∃ g, findOne s id = Except.ok g) := by
  unfold findOne
  cases hf : s.groups.find? (fun g => g.id == id) with
  | none =>
    rw [List.find?_eq_none] at hf
    refine ⟨fun _ => rfl, fun g hg => by simp at hg, fun hex => ?_⟩
    obtain ⟨g, hg, hid⟩ := hex
    exact absurd (by simp [hid] : (g.id == id) = true) (by simpa using hf g hg)
  | some g =>
    have hp : (g.id == id) = true := by
      have h2 := List.find?_some hf
      exact h2
    have hmem : g ∈ s.groups := List.mem_of_find?_eq_some hf
    refine ⟨fun hall => absurd (by simpa using hp) (hall g hmem), ?_, fun _ => ⟨g, rfl⟩⟩
    intro g' hg'
    simp only [Except.ok.injEq] at hg'
    subst hg'
    exact ⟨hmem, by simpa using hp⟩

/-- C7 witness: on a store with a single group of id 10, fetching id 10
succeeds and fetching id 99 raises the NotFound message. -/
theorem findOne_spec_witness :
    (findOne storeU 99 = Except.error "List Group with ID 99 not found")
    ∧ (∃ g, findOne storeU 10 = Except.ok g) :=
  ⟨(findOne_spec storeU 99).1 (by decide),
   (findOne_spec storeU 10).2.2 ⟨storeU.groups.head (by decide), by decide, by decide⟩⟩

/-- C10: update on a missing id raises exactly the findOne NotFound
error and leaves the store unchanged; on an existing id it saves the
merge of the patch onto the found group, where each field supplied by
the patch takes the patch's value and every other field keeps its prior
value. -/
theorem update_spec (s : Store) (id : Nat) (d : ListGroupsService.UpdateListGroupDto) :
    ((∀ g ∈ s.groups, g.id ≠ id) →
        update s id d =
          (Except.error ("List Group with ID " ++ toString id ++ " not found"), s))
    ∧ (∀ g, s.groups.find? (fun h => h.id == id) = some g →
        ∃ m, update s id d =
            (Except.ok m,
             { s with groups := s.groups.map (fun h => if h.id == id then m else h) })
          ∧ m.id = g.id ∧ m.listId = g.listId ∧ m.filter = g.filter
          ∧ m.name = d.name.getD g.name
          ∧ m.type = d.type.getD g.type
          ∧ m.entityId = d.entityId.getD g.entityId
          ∧ m.entityType = d.entityType.getD g.entityType
          ∧ m.color = d.color.getD g.color
          ∧ m.icon = d.icon.getD g.icon
          ∧ m.order = d.order.getD g.order
          ∧ m.isExpanded = d.isExpanded.getD g.isExpanded) := by
  constructor
  · intro hall
    have hf : s.groups.find? (fun g => g.id == id) = none := by
      rw [List.find?_eq_none]
      intro g hg
      simpa using hall g hg
    unfold update findOne
    rw [hf]
  · intro g hf
    refine ⟨mergeGroup g d, ?_, rfl, rfl, rfl, rfl, rfl, rfl, rfl, rfl, rfl, rfl, rfl⟩
    unfold update findOne
    rw [hf]

/-- C10 witness: patching only name and color of group 10 changes those
two fields and keeps every other field; patching a missing id 99 raises
the NotFound error and leaves the store as it was. -/
theorem update_spec_witness :
    (update storeU 99 patchNC =
      (Except.error "List Group with ID 99 not found", storeU))
    ∧ (∃ m, update storeU 10 patchNC =
        (Except.ok m,
         { storeU with
            groups := storeU.groups.map (fun h => if h.id == 10 then m else h) })
        ∧ m.id = 10 ∧ m.name = "Renamed" ∧ m.color = some "violet"
        ∧ m.order = some 2 ∧ m.isExpanded = false) := by
  refine ⟨(update_spec storeU 99 patchNC).1 (by decide), ?_⟩
  obtain ⟨m, hm, hid, hlist, hfil, hname, hty, hent, hentT, hcol, hicon, hord, hexp⟩ :=
    (update_spec storeU 10 patchNC).2 (storeU.groups.head (by decide)) (by decide)
  exact ⟨m, hm, by simpa [storeU, patchNC] using hid,
    by simpa [storeU, patchNC] using hname,
    by simpa [storeU, patchNC] using hcol,
    by simpa [storeU, patchNC] using hord,
    by simpa [storeU, patchNC] using hexp⟩

/-! Failure behavior of the reconciliation fan-out. -/

/-- C2: evaluating the failure-instrumented generateGroups at a
concrete input shows that a single creation failure inside the fan-out
does not yield a completed call: the wrapper promise of the failed item
never settles (the executor has no reject path and only resolves on
success), so Promise.allSettled never resolves and the routine hangs
(result `none`) instead of completing; with no creation failure the
same call completes normally, and a failed initial fetch is rethrown to
the caller as an error. -/
theorem generateGroups_creation_failure_hangs :
    (generateGroupsE envStages failFirstCreate store0 pDue = none)
    ∧ (∃ r, generateGroupsE envStages ListGroupsService.noFailures store0 pDue =
        some (Except.ok r))
    ∧ (generateGroupsE envStages
        { ListGroupsService.noFailures with initialFetchFails := true } store0 pDue =
        some (Except.error "initial fetch failed")) :=
  ⟨rfl, ⟨_, rfl⟩, rfl⟩
